import Mathlib

/-!
Shallow embedding of the thermal-extraction program `extract_thermal.js`
(DJI R-JPEG pipeline) and, where the FLIR pipeline is referenced by the
specification but its implementation is not among the inspected source files,
a model built from the specification text.

Modelling conventions:
* JS 64-bit floats are modelled as rationals (`ℚ`); the program only divides
  integer raw codes by 10 and adds, so every value it manipulates is exact.
* The `Infinity` / `-Infinity` sentinels used to seed the min/max scan are
  modelled as `⊤ : WithTop ℚ` and `⊥ : WithBot ℚ`.
* The JS float division `sum / length`, which yields `NaN` when `length = 0`
  (the numerator is then `0`), is modelled as an `Option ℚ` whose `none`
  value marks the `NaN` outcome.
-/

/-- Environmental/calibration hints returned by the DJI SDK decoder
(`thermalData.parameters` in `extract_thermal.js`). -/
structure DjiParameters where
  distance : ℚ
  humidity : ℚ
  emissivity : ℚ
  reflection : ℚ
deriving DecidableEq

/-- The decoder output `thermalData = getTemperatureData(imageBuffer)`:
dimensions, calibration hints and the per-pixel raw codes (row-major). -/
structure ThermalData where
  width : ℕ
  height : ℕ
  parameters : DjiParameters
  data : List ℤ
deriving DecidableEq

/-- DJI conversion, the loop body expression `thermalData.data[i] / 10`. -/
def djiConvert (v : ℤ) : ℚ := (v : ℚ) / 10

/-- Accumulator of the statistics loop: `minTemp`, `maxTemp`, `sum`. -/
structure StatsState where
  minTemp : WithTop ℚ
  maxTemp : WithBot ℚ
  sum : ℚ
deriving DecidableEq

/-- Initial accumulator: `minTemp = Infinity`, `maxTemp = -Infinity`, `sum = 0`. -/
def statsInit : StatsState :=
  { minTemp := ⊤, maxTemp := ⊥, sum := 0 }

/-- One iteration of the statistics loop:
`if (temp < minTemp) minTemp = temp; if (temp > maxTemp) maxTemp = temp; sum += temp;`. -/
def statsStep (s : StatsState) (t : ℚ) : StatsState :=
  { minTemp := if (t : WithTop ℚ) < s.minTemp then (t : WithTop ℚ) else s.minTemp
    maxTemp := if s.maxTemp < (t : WithBot ℚ) then (t : WithBot ℚ) else s.maxTemp
    sum := s.sum + t }

/-- The statistics loop over a list of already-converted temperatures. -/
def statsFold (l : List ℚ) : StatsState :=
  l.foldl statsStep statsInit

/-- The statistics loop of `extract_thermal.js` over the raw data:
each raw code is converted by `djiConvert` and fed to the accumulator. -/
def runStats (data : List ℤ) : StatsState :=
  statsFold (data.map djiConvert)

/-- JS float division used for `avgTemp = sum / thermalData.data.length`;
a zero divisor (possible only for an empty grid, where the running sum is 0)
yields `NaN`, modelled as `none`. -/
def jsDiv (a b : ℚ) : Option ℚ :=
  if b = 0 then none else some (a / b)

/-- The program's `avgTemp = sum / thermalData.data.length`. -/
def avgTemp (data : List ℤ) : Option ℚ :=
  jsDiv (runStats data).sum (data.length : ℚ)

/-- The `statistics` object of the JSON output. -/
structure Statistics where
  min : WithTop ℚ
  max : WithBot ℚ
  average : Option ℚ
deriving DecidableEq

/-- The JSON summary object `output` written by `fs.writeFileSync`. -/
structure SummaryRecord where
  width : ℕ
  height : ℕ
  metadata : DjiParameters
  statistics : Statistics
deriving DecidableEq

/-- Construction of the summary object in `extract_thermal.js`: dimensions,
the four calibration hints copied field by field from `thermalData.parameters`,
and the exact (unrounded) statistics of the pass. -/
def summaryRecord (g : ThermalData) : SummaryRecord :=
  { width := g.width
    height := g.height
    metadata :=
      { distance := g.parameters.distance
        humidity := g.parameters.humidity
        emissivity := g.parameters.emissivity
        reflection := g.parameters.reflection }
    statistics :=
      { min := (runStats g.data).minTemp
        max := (runStats g.data).maxTemp
        average := avgTemp g.data } }

/-- The 2×2 DJI grid of the specification's Scenario A. -/
def exampleGrid : ThermalData :=
  { width := 2
    height := 2
    parameters := { distance := 5, humidity := 70, emissivity := 95 / 100, reflection := 23 }
    data := [200, 205, 210, 215] }

/-- A zero-pixel decoder output (`thermalData.data` empty). -/
def emptyGrid : ThermalData :=
  { width := 0
    height := 0
    parameters := { distance := 0, humidity := 0, emissivity := 0, reflection := 0 }
    data := [] }

/-- One step of the loop takes the minimum with the incoming temperature. -/
theorem statsStep_minTemp (s : StatsState) (t : ℚ) :
    (statsStep s t).minTemp = min (t : WithTop ℚ) s.minTemp := by
  simp only [statsStep]
  rcases lt_or_le (t : WithTop ℚ) s.minTemp with h | h
  · rw [if_pos h, min_eq_left h.le]
  · rw [if_neg (not_lt.mpr h), min_eq_right h]

/-- One step of the loop takes the maximum with the incoming temperature. -/
theorem statsStep_maxTemp (s : StatsState) (t : ℚ) :
    (statsStep s t).maxTemp = max (t : WithBot ℚ) s.maxTemp := by
  simp only [statsStep]
  rcases lt_or_le s.maxTemp (t : WithBot ℚ) with h | h
  · rw [if_pos h, max_eq_left h.le]
  · rw [if_neg (not_lt.mpr h), max_eq_right h]

/-- One step of the loop adds the incoming temperature to the running sum. -/
theorem statsStep_sum (s : StatsState) (t : ℚ) :
    (statsStep s t).sum = s.sum + t := rfl

/-- The loop's final `minTemp` is the minimum of the seed and of the list. -/
theorem statsFold_go_minTemp (l : List ℚ) :
    ∀ s : StatsState, (l.foldl statsStep s).minTemp = min s.minTemp l.minimum := by
  induction l with
  | nil => intro s; simp [List.minimum_nil]
  | cons a l ih =>
    intro s
    rw [List.foldl_cons, ih, statsStep_minTemp, List.minimum_cons,
      min_comm (a : WithTop ℚ) s.minTemp, min_assoc]

/-- The loop's final `maxTemp` is the maximum of the seed and of the list. -/
theorem statsFold_go_maxTemp (l : List ℚ) :
    ∀ s : StatsState, (l.foldl statsStep s).maxTemp = max s.maxTemp l.maximum := by
  induction l with
  | nil => intro s; simp [List.maximum_nil]
  | cons a l ih =>
    intro s
    rw [List.foldl_cons, ih, statsStep_maxTemp, List.maximum_cons,
      max_comm (a : WithBot ℚ) s.maxTemp, max_assoc]

/-- The loop's final `sum` adds the list's sum to the seed. -/
theorem statsFold_go_sum (l : List ℚ) :
    ∀ s : StatsState, (l.foldl statsStep s).sum = s.sum + l.sum := by
  induction l with
  | nil => intro s; simp
  | cons a l ih =>
    intro s
    rw [List.foldl_cons, ih, statsStep_sum, List.sum_cons, add_assoc]

/-- Final `minTemp` of a full run is the list minimum of the converted values. -/
theorem runStats_minTemp (data : List ℤ) :
    (runStats data).minTemp = (data.map djiConvert).minimum := by
  rw [runStats, statsFold, statsFold_go_minTemp]
  exact min_eq_right le_top

/-- Final `maxTemp` of a full run is the list maximum of the converted values. -/
theorem runStats_maxTemp (data : List ℤ) :
    (runStats data).maxTemp = (data.map djiConvert).maximum := by
  rw [runStats, statsFold, statsFold_go_maxTemp]
  exact max_eq_right bot_le

/-- Final `sum` of a full run is the sum of the converted values. -/
theorem runStats_sum (data : List ℤ) :
    (runStats data).sum = (data.map djiConvert).sum := by
  rw [runStats, statsFold, statsFold_go_sum]
  simp [statsInit]

/-- An average of list elements lies between any lower and upper bound of the
list, provided the list is non-empty. -/
theorem avg_between {l : List ℚ} {m M : ℚ} (hne : l ≠ [])
    (hm : ∀ x ∈ l, m ≤ x) (hM : ∀ x ∈ l, x ≤ M) :
    m ≤ l.sum / l.length ∧ l.sum / l.length ≤ M := by
  have h0 : 0 < l.length := List.length_pos.mpr hne
  have hlen : (0 : ℚ) < (l.length : ℚ) := by exact_mod_cast h0
  have h1 := List.card_nsmul_le_sum l m hm
  have h2 := List.sum_le_card_nsmul l M hM
  rw [nsmul_eq_mul] at h1 h2
  constructor
  · rw [le_div_iff₀ hlen]; linarith
  · rw [div_le_iff₀ hlen]; linarith

/-- Specification of a full statistics run on a non-empty raw data list:
`minTemp` and `maxTemp` are the least and greatest converted temperatures,
`sum` is their sum, the average is `sum / count`, and it lies between the
minimum and the maximum. -/
theorem runStats_spec (data : List ℤ) (h : data ≠ []) :
    ∃ m M : ℚ,
      (runStats data).minTemp = (m : WithTop ℚ) ∧
      (runStats data).maxTemp = (M : WithBot ℚ) ∧
      m ∈ data.map djiConvert ∧
      M ∈ data.map djiConvert ∧
      (∀ t ∈ data.map djiConvert, m ≤ t ∧ t ≤ M) ∧
      (runStats data).sum = (data.map djiConvert).sum ∧
      avgTemp data = some ((data.map djiConvert).sum / (data.length : ℚ)) ∧
      m ≤ (data.map djiConvert).sum / (data.length : ℚ) ∧
      (data.map djiConvert).sum / (data.length : ℚ) ≤ M := by
  have hne : data.map djiConvert ≠ [] := by
    simpa using h
  obtain ⟨m, hm⟩ : ∃ m : ℚ, (data.map djiConvert).minimum = (m : WithTop ℚ) := by
    rcases hmin : (data.map djiConvert).minimum with _ | m
    · exact absurd hmin (List.minimum_ne_top_of_ne_nil hne)
    · exact ⟨m, rfl⟩
  obtain ⟨M, hM⟩ : ∃ M : ℚ, (data.map djiConvert).maximum = (M : WithBot ℚ) := by
    rcases hmax : (data.map djiConvert).maximum with _ | M
    · exact absurd hmax (List.maximum_ne_bot_of_ne_nil hne)
    · exact ⟨M, rfl⟩
  obtain ⟨hmMem, hmLe⟩ := List.minimum_eq_coe_iff.mp hm
  obtain ⟨hMMem, hMLe⟩ := List.maximum_eq_coe_iff.mp hM
  have hlenmap : (data.map djiConvert).length = data.length := List.length_map _ _
  have havg := avg_between hne hmLe hMLe
  rw [hlenmap] at havg
  refine ⟨m, M, ?_, ?_, hmMem, hMMem, fun t ht => ⟨hmLe t ht, hMLe t ht⟩, runStats_sum data,
    ?_, havg.1, havg.2⟩
  · rw [runStats_minTemp]; exact hm
  · rw [runStats_maxTemp]; exact hM
  · have hlen0 : (data.length : ℚ) ≠ 0 := by
      have := List.length_pos.mpr h
      positivity
    rw [avgTemp, jsDiv, if_neg hlen0, runStats_sum]

/-- Observable output events of one run of the `try` block of
`extract_thermal.js`, in program order: the statistics loop over all pixels,
the `fs.writeFileSync` of the JSON summary, the CSV header write, the per-pixel
CSV row writes, and the closing `csvStream.end()`. -/
inductive RunEvent where
  | statsPass : RunEvent
  | writeSummary : RunEvent
  | csvHeader : RunEvent
  | csvRowWrite : ℕ → RunEvent
  | csvEnd : RunEvent
deriving DecidableEq

/-- The event trace of a complete run, in the order the statements of the
source execute: the statistics loop, then `fs.writeFileSync(jsonOutput, ...)`,
then the CSV header and the row loop, then `csvStream.end()`. -/
def runTrace (g : ThermalData) : List RunEvent :=
  RunEvent.statsPass :: RunEvent.writeSummary :: RunEvent.csvHeader ::
    ((List.range g.data.length).map RunEvent.csvRowWrite ++ [RunEvent.csvEnd])

/-- The summary write is not among the row-loop tail of the trace. -/
theorem writeSummary_not_in_tail (g : ThermalData) :
    RunEvent.writeSummary ∉
      (List.range g.data.length).map RunEvent.csvRowWrite ++ [RunEvent.csvEnd] := by
  intro hmem
  rcases List.mem_append.mp hmem with hmap | hsingle
  · obtain ⟨k, -, hk⟩ := List.mem_map.mp hmap
    exact RunEvent.noConfusion hk
  · rcases List.mem_singleton.mp hsingle with h
    exact RunEvent.noConfusion h

/-- C1. For every raw pixel value `v`, the DJI conversion returns exactly
`v / 10`: raw values are linear temperature codes in tenths of a degree
(so multiplying the result back by 10 recovers the raw code exactly), and no
further physical model is applied. -/
theorem C1_dji_convert_exact (v : ℤ) :
    djiConvert v = (v : ℚ) / 10 ∧ djiConvert v * 10 = (v : ℚ) := by
  refine ⟨rfl, ?_⟩
  unfold djiConvert
  rw [div_mul_cancel₀]
  norm_num

/-- C2. For every non-empty raw data sequence the reported statistics match the
reference definitions over the converted Celsius values: `min` is the least
converted temperature, `max` the greatest, and `average` is the running sum
divided by the count; in particular the 2×2 DJI grid `[200, 205, 210, 215]`
yields `{min := 20, max := 21.5, average := 20.75}`. -/
theorem C2_statistics_reference (g : ThermalData) (h : g.data ≠ []) :
    (∃ m : ℚ, (summaryRecord g).statistics.min = (m : WithTop ℚ) ∧
      m ∈ g.data.map djiConvert ∧ ∀ t ∈ g.data.map djiConvert, m ≤ t) ∧
    (∃ M : ℚ, (summaryRecord g).statistics.max = (M : WithBot ℚ) ∧
      M ∈ g.data.map djiConvert ∧ ∀ t ∈ g.data.map djiConvert, t ≤ M) ∧
    (summaryRecord g).statistics.average =
      some ((g.data.map djiConvert).sum / (g.data.length : ℚ)) ∧
    ((summaryRecord exampleGrid).statistics.min = ((20 : ℚ) : WithTop ℚ) ∧
      (summaryRecord exampleGrid).statistics.max = ((43 / 2 : ℚ) : WithBot ℚ) ∧
      (summaryRecord exampleGrid).statistics.average = some (83 / 4)) := by
  obtain ⟨m, M, hmin, hmax, hmMem, hMMem, hbnd, -, havg, -, -⟩ := runStats_spec g.data h
  refine ⟨⟨m, hmin, hmMem, fun t ht => (hbnd t ht).1⟩,
    ⟨M, hmax, hMMem, fun t ht => (hbnd t ht).2⟩, havg, ?_, ?_, ?_⟩
  · show (runStats exampleGrid.data).minTemp = _
    rw [runStats_minTemp]
    norm_num [exampleGrid, djiConvert, List.minimum_cons, List.minimum_singleton,
      ← WithTop.coe_min, ← WithTop.coe_ofNat, WithTop.coe_le_coe, WithTop.coe_lt_coe,
      WithTop.coe_eq_coe]
  · show (runStats exampleGrid.data).maxTemp = _
    rw [runStats_maxTemp]
    norm_num [exampleGrid, djiConvert, List.maximum_cons, List.maximum_singleton,
      ← WithBot.coe_max, ← WithBot.coe_ofNat, WithBot.coe_le_coe, WithBot.coe_lt_coe,
      WithBot.coe_eq_coe]
  · show avgTemp exampleGrid.data = _
    rw [avgTemp, runStats_sum]
    norm_num [exampleGrid, djiConvert, jsDiv]

/-- Witness for C2 at the Scenario A grid. -/
theorem C2_statistics_reference_witness :
    exampleGrid.data ≠ [] ∧
    ((∃ m : ℚ, (summaryRecord exampleGrid).statistics.min = (m : WithTop ℚ) ∧
      m ∈ exampleGrid.data.map djiConvert ∧
      ∀ t ∈ exampleGrid.data.map djiConvert, m ≤ t) ∧
    (∃ M : ℚ, (summaryRecord exampleGrid).statistics.max = (M : WithBot ℚ) ∧
      M ∈ exampleGrid.data.map djiConvert ∧
      ∀ t ∈ exampleGrid.data.map djiConvert, t ≤ M) ∧
    (summaryRecord exampleGrid).statistics.average =
      some ((exampleGrid.data.map djiConvert).sum / (exampleGrid.data.length : ℚ)) ∧
    ((summaryRecord exampleGrid).statistics.min = ((20 : ℚ) : WithTop ℚ) ∧
      (summaryRecord exampleGrid).statistics.max = ((43 / 2 : ℚ) : WithBot ℚ) ∧
      (summaryRecord exampleGrid).statistics.average = some (83 / 4))) :=
  ⟨by decide, C2_statistics_reference exampleGrid (by decide)⟩

/-- C10. For every non-empty raw data sequence the final statistics satisfy
`min ≤ average ≤ max`, and after each loop iteration (the state after `k`
iterations is the run over the first `k` raw values) the partial sum divided
by the partial count also lies between the partial minimum and maximum. -/
theorem C10_min_avg_max (g : ThermalData) (h : g.data ≠ []) :
    (∃ m M a : ℚ, (summaryRecord g).statistics.min = (m : WithTop ℚ) ∧
      (summaryRecord g).statistics.max = (M : WithBot ℚ) ∧
      (summaryRecord g).statistics.average = some a ∧ m ≤ a ∧ a ≤ M) ∧
    (∀ k : ℕ, 0 < k → k ≤ g.data.length →
      ∃ m M : ℚ, (runStats (g.data.take k)).minTemp = (m : WithTop ℚ) ∧
        (runStats (g.data.take k)).maxTemp = (M : WithBot ℚ) ∧
        m ≤ (runStats (g.data.take k)).sum / (k : ℚ) ∧
        (runStats (g.data.take k)).sum / (k : ℚ) ≤ M) := by
  constructor
  · obtain ⟨m, M, hmin, hmax, -, -, -, -, havg, hle1, hle2⟩ := runStats_spec g.data h
    exact ⟨m, M, (g.data.map djiConvert).sum / (g.data.length : ℚ),
      hmin, hmax, havg, hle1, hle2⟩
  · intro k hk hkle
    have hlen : (g.data.take k).length = k := by
      rw [List.length_take]
      exact min_eq_left hkle
    have hne : g.data.take k ≠ [] := by
      intro hnil
      rw [hnil] at hlen
      simp at hlen
      omega
    obtain ⟨m, M, hmin, hmax, -, -, -, hsum, -, hle1, hle2⟩ := runStats_spec (g.data.take k) hne
    rw [hlen] at hle1 hle2
    rw [← hsum] at hle1 hle2
    exact ⟨m, M, hmin, hmax, hle1, hle2⟩

/-- Rendering of a natural number below 100 as two decimal digits. -/
def twoDigits (n : ℕ) : String :=
  if n < 10 then "0" ++ toString n else toString n

/-- JS `Number.prototype.toFixed(2)` applied to `|q|`: the integer count of
hundredths, rounding half away from zero (the ECMAScript algorithm negates a
negative argument, formats it, and prepends the sign). -/
def fixed2num (q : ℚ) : ℤ :=
  ⌊|q| * 100 + 1 / 2⌋

/-- The rational value denoted by the string `q.toFixed(2)`. -/
def fixed2val (q : ℚ) : ℚ :=
  ((if q < 0 then -fixed2num q else fixed2num q : ℤ) : ℚ) / 100

/-- The string `q.toFixed(2)`: optional sign, integer part, a dot, and exactly
two fractional digits. -/
def formatFixed2 (q : ℚ) : String :=
  (if q < 0 then "-" else "") ++ toString ((fixed2num q).toNat / 100) ++ "." ++
    twoDigits ((fixed2num q).toNat % 100)

/-- One CSV data line of the export loop:
`` `${x},${y},${temp}\n` `` with `x = i % width`, `y = Math.floor(i / width)`
and `temp = (thermalData.data[i] / 10).toFixed(2)` (the newline terminator is
left to the line joiner). -/
def csvRow (width i : ℕ) (v : ℤ) : String :=
  toString (i % width) ++ "," ++ toString (i / width) ++ "," ++ formatFixed2 (djiConvert v)

/-- The CSV artifact as the list of its lines: the header written by
`csvStream.write('x,y,temperature_celsius\n')` followed by one line per pixel
in ascending linear index order. -/
def csvLines (g : ThermalData) : List String :=
  "x,y,temperature_celsius" :: g.data.enum.map (fun p => csvRow g.width p.1 p.2)

/-- Two-digit rendering really has length two. -/
theorem twoDigits_length : ∀ n : ℕ, n < 100 → (twoDigits n).length = 2 := by
  decide

/-- `toFixed(2)` is exact on DJI-converted values: a raw integer code divided
by 10 has at most one fractional decimal digit, so rounding to hundredths does
not move it. -/
theorem fixed2val_dji (v : ℤ) : fixed2val (djiConvert v) = djiConvert v := by
  have habs : |djiConvert v| * 100 = ((10 * |v| : ℤ) : ℚ) := by
    rw [djiConvert, abs_div]
    push_cast
    rw [abs_of_nonneg (by norm_num : (0 : ℚ) ≤ 10)]
    ring
  have hnum : fixed2num (djiConvert v) = 10 * |v| := by
    rw [fixed2num, habs, add_comm, Int.floor_add_int]
    norm_num
  rw [fixed2val, hnum]
  by_cases hneg : djiConvert v < 0
  · have hv : (v : ℚ) < 0 := by
      have := hneg
      rw [djiConvert, div_neg_iff] at this
      rcases this with ⟨-, h10⟩ | ⟨hv, -⟩
      · norm_num at h10
      · exact hv
    have hvz : v < 0 := by exact_mod_cast hv
    rw [if_pos hneg, abs_of_neg hvz, djiConvert]
    push_cast
    ring
  · have hv : (0 : ℚ) ≤ (v : ℚ) := by
      by_contra hc
      push_neg at hc
      exact hneg (by rw [djiConvert]; exact div_neg_of_neg_of_pos hc (by norm_num))
    have hvz : 0 ≤ v := by exact_mod_cast hv
    rw [if_neg hneg, abs_of_nonneg hvz, djiConvert]
    push_cast
    ring

/-- C3. For every grid the CSV artifact is the header line
`x,y,temperature_celsius` followed by one line per pixel (every DJI pixel
converts successfully) in ascending linear index order; line `i + 1` carries
`x = i mod width`, `y = i div width` and the temperature rendered by
`toFixed(2)`, whose output always has exactly two digits after the dot. -/
theorem C3_csv_layout (g : ThermalData) (h : 0 < g.width) :
    (csvLines g).head? = some "x,y,temperature_celsius" ∧
    (csvLines g).length = g.data.length + 1 ∧
    (∀ i : ℕ, i < g.data.length →
      (csvLines g)[i + 1]? =
        some (toString (i % g.width) ++ "," ++ toString (i / g.width) ++ "," ++
          formatFixed2 (djiConvert (g.data.getD i 0)))) ∧
    (∀ q : ℚ, ∃ a b : String, formatFixed2 q = a ++ "." ++ b ∧ b.length = 2) := by
  refine ⟨rfl, ?_, ?_, ?_⟩
  · simp [csvLines]
  · intro i hi
    have hdata : g.data[i]? = some (g.data.getD i 0) := by
      rw [List.getElem?_eq_getElem hi, List.getD_eq_getElem g.data 0 hi]
    rw [csvLines, List.getElem?_cons_succ, List.getElem?_map, List.getElem?_enum, hdata]
    rfl
  · intro q
    refine ⟨(if q < 0 then "-" else "") ++ toString ((fixed2num q).toNat / 100),
      twoDigits ((fixed2num q).toNat % 100), rfl, ?_⟩
    exact twoDigits_length _ (Nat.mod_lt _ (by norm_num))

/-- Witness for C3 at the Scenario A grid. -/
theorem C3_csv_layout_witness :
    0 < exampleGrid.width ∧
    ((csvLines exampleGrid).head? = some "x,y,temperature_celsius" ∧
    (csvLines exampleGrid).length = exampleGrid.data.length + 1 ∧
    (∀ i : ℕ, i < exampleGrid.data.length →
      (csvLines exampleGrid)[i + 1]? =
        some (toString (i % exampleGrid.width) ++ "," ++ toString (i / exampleGrid.width) ++
          "," ++ formatFixed2 (djiConvert (exampleGrid.data.getD i 0)))) ∧
    (∀ q : ℚ, ∃ a b : String, formatFixed2 q = a ++ "." ++ b ∧ b.length = 2)) :=
  ⟨by decide, C3_csv_layout exampleGrid (by decide)⟩

/-- C6. Summing the (2-decimal rendered) temperature column of the CSV and
dividing by the row count reproduces the summary's average within the
half-hundredth rounding tolerance; on DJI data the rendering is exact, so the
difference is in fact zero. -/
theorem C6_csv_roundtrip (g : ThermalData) (h : g.data ≠ []) :
    ∃ a : ℚ, (summaryRecord g).statistics.average = some a ∧
      |(g.data.map (fun v => fixed2val (djiConvert v))).sum / (g.data.length : ℚ) - a| ≤
        5 / 1000 := by
  obtain ⟨m, M, -, -, -, -, -, -, havg, -, -⟩ := runStats_spec g.data h
  refine ⟨(g.data.map djiConvert).sum / (g.data.length : ℚ), havg, ?_⟩
  have hfun : (fun v : ℤ => fixed2val (djiConvert v)) = djiConvert := funext fixed2val_dji
  rw [hfun, sub_self, abs_zero]
  norm_num

/-- Witness for C6 at the Scenario A grid. -/
theorem C6_csv_roundtrip_witness :
    exampleGrid.data ≠ [] ∧
    (∃ a : ℚ, (summaryRecord exampleGrid).statistics.average = some a ∧
      |(exampleGrid.data.map (fun v => fixed2val (djiConvert v))).sum /
          (exampleGrid.data.length : ℚ) - a| ≤ 5 / 1000) :=
  ⟨by decide, C6_csv_roundtrip exampleGrid (by decide)⟩

/-- Witness for C10 at the Scenario A grid. -/
theorem C10_min_avg_max_witness :
    exampleGrid.data ≠ [] ∧
    ((∃ m M a : ℚ, (summaryRecord exampleGrid).statistics.min = (m : WithTop ℚ) ∧
      (summaryRecord exampleGrid).statistics.max = (M : WithBot ℚ) ∧
      (summaryRecord exampleGrid).statistics.average = some a ∧ m ≤ a ∧ a ≤ M) ∧
    (∀ k : ℕ, 0 < k → k ≤ exampleGrid.data.length →
      ∃ m M : ℚ, (runStats (exampleGrid.data.take k)).minTemp = (m : WithTop ℚ) ∧
        (runStats (exampleGrid.data.take k)).maxTemp = (M : WithBot ℚ) ∧
        m ≤ (runStats (exampleGrid.data.take k)).sum / (k : ℚ) ∧
        (runStats (exampleGrid.data.take k)).sum / (k : ℚ) ≤ M)) :=
  ⟨by decide, C10_min_avg_max exampleGrid (by decide)⟩

/-- C4. Evidence at the failing input: for a zero-pixel grid the program still
writes the summary record, whose `average` is the `NaN` produced by `0 / 0`
(modelled `none`) and whose `min`/`max` are the untouched `Infinity` /
`-Infinity` sentinels; no explicit "no data" condition exists anywhere in the
output, contradicting the specification's requirement. -/
theorem C4_empty_grid_nan_emitted :
    (summaryRecord emptyGrid).statistics.average = none ∧
    (summaryRecord emptyGrid).statistics.min = (⊤ : WithTop ℚ) ∧
    (summaryRecord emptyGrid).statistics.max = (⊥ : WithBot ℚ) ∧
    RunEvent.writeSummary ∈ runTrace emptyGrid := by
  refine ⟨?_, rfl, rfl, ?_⟩
  · show avgTemp emptyGrid.data = none
    simp [emptyGrid, avgTemp, jsDiv, runStats, statsFold, statsInit]
  · simp [runTrace]

/-- C5 (counterexample). On the Scenario A grid the summary write occupies
position 1 of the run trace while the first CSV row write occupies position 3:
a tabular row is emitted after the summary record is already on disk, so the
summary is not written "only after the full pass including the tabular row
stream". -/
theorem C5_counterexample :
    (runTrace exampleGrid)[1]? = some RunEvent.writeSummary ∧
    (runTrace exampleGrid)[3]? = some (RunEvent.csvRowWrite 0) ∧ (1 : ℕ) < 3 := by
  decide

/-- C5 (amended). The summary record is written exactly once, immediately
after the per-pixel statistics pass but before the whole tabular row stream:
it occupies position 1 of every run trace, every summary write in the trace is
at that position, and every CSV row write comes strictly later. Consequently a
run aborted during the tabular stream already has its summary on disk. -/
theorem C5_summary_before_rows (g : ThermalData) :
    (runTrace g)[0]? = some RunEvent.statsPass ∧
    (runTrace g)[1]? = some RunEvent.writeSummary ∧
    (∀ j : ℕ, (runTrace g)[j]? = some RunEvent.writeSummary → j = 1) ∧
    (∀ j k : ℕ, (runTrace g)[j]? = some (RunEvent.csvRowWrite k) → 1 < j) := by
  refine ⟨rfl, rfl, ?_, ?_⟩
  · intro j hj
    match j with
    | 0 => exact absurd hj (by simp [runTrace])
    | 1 => rfl
    | 2 => exact absurd hj (by simp [runTrace])
    | j + 3 =>
      rw [runTrace] at hj
      simp only [List.getElem?_cons_succ] at hj
      exact absurd (List.getElem?_mem hj) (writeSummary_not_in_tail g)
  · intro j k hj
    match j with
    | 0 => exact absurd hj (by simp [runTrace])
    | 1 => exact absurd hj (by simp [runTrace])
    | 2 => exact absurd hj (by simp [runTrace])
    | j + 3 => omega

/-- C7. The conversion run is a deterministic function of the decoded input:
equal inputs give identical CSV lines, identical summary records and identical
event traces (the embedding of the source is a pure function; the source
consults no randomness, clock or hidden state between runs). -/
theorem C7_deterministic (g1 g2 : ThermalData) (h : g1 = g2) :
    csvLines g1 = csvLines g2 ∧ summaryRecord g1 = summaryRecord g2 ∧
      runTrace g1 = runTrace g2 := by
  subst h
  exact ⟨rfl, rfl, rfl⟩

/-- Witness for C7 at the Scenario A grid. -/
theorem C7_deterministic_witness :
    exampleGrid = exampleGrid ∧
    (csvLines exampleGrid = csvLines exampleGrid ∧
      summaryRecord exampleGrid = summaryRecord exampleGrid ∧
      runTrace exampleGrid = runTrace exampleGrid) :=
  ⟨rfl, C7_deterministic exampleGrid exampleGrid rfl⟩

/-- C8. The summary record carries exactly the declared shape (the
`SummaryRecord` and `Statistics` structures): `width` and `height` are the
grid dimensions, `metadata` is the decoder's calibration-hint object passed
through unchanged, and the statistics are the exact (full-precision, unrounded)
values of the pass — unlike the CSV column, no `toFixed` rounding is applied
to them. -/
theorem C8_summary_structure (g : ThermalData) :
    (summaryRecord g).width = g.width ∧
    (summaryRecord g).height = g.height ∧
    (summaryRecord g).metadata = g.parameters ∧
    (summaryRecord g).metadata.distance = g.parameters.distance ∧
    (summaryRecord g).metadata.humidity = g.parameters.humidity ∧
    (summaryRecord g).metadata.emissivity = g.parameters.emissivity ∧
    (summaryRecord g).metadata.reflection = g.parameters.reflection ∧
    (summaryRecord g).statistics.min = (runStats g.data).minTemp ∧
    (summaryRecord g).statistics.max = (runStats g.data).maxTemp ∧
    (summaryRecord g).statistics.average = avgTemp g.data :=
  ⟨rfl, rfl, rfl, rfl, rfl, rfl, rfl, rfl, rfl, rfl⟩

/-- Modelled from the spec: the FLIR calibration constants `R1, R2, B, F, O`
(Planck radiation constants, §3 of the specification). The FLIR pipeline's
implementation is not among the inspected source files; only the DJI script
is. -/
structure FlirCalibration where
  R1 : ℚ
  R2 : ℚ
  B : ℚ
  F : ℚ
  O : ℚ
deriving DecidableEq

/-- Modelled from the spec: the two per-pixel failure modes of the FLIR
conversion. -/
inductive ConversionDomainError where
  | divisionByZero : ConversionDomainError
  | logNonPositive : ConversionDomainError
deriving DecidableEq

/-- Modelled from the spec: the argument `R1 / (R2 * (rawValue + O)) + F` of
the natural logarithm in the Planck formula. -/
def flirLogArg (c : FlirCalibration) (v : ℤ) : ℚ :=
  c.R1 / (c.R2 * ((v : ℚ) + c.O)) + c.F

/-- Modelled from the spec: the domain condition under which a FLIR pixel
converts — `(rawValue + O)` non-zero and a positive logarithm argument. -/
def flirDomainOk (c : FlirCalibration) (v : ℤ) : Prop :=
  (v : ℚ) + c.O ≠ 0 ∧ 0 < flirLogArg c v

instance flirDomainOkDecidable (c : FlirCalibration) (v : ℤ) :
    Decidable (flirDomainOk c v) := by
  unfold flirDomainOk
  infer_instance

/-- Modelled from the spec: the Planck temperature
`B / ln(R1 / (R2 * (rawValue + O)) + F) - 273.15`. The natural logarithm is an
opaque parameter `ln` of the model: the claims below concern only the domain
checks and the skip policy, never the transcendental value. -/
def flirTemp (ln : ℚ → ℚ) (c : FlirCalibration) (v : ℤ) : ℚ :=
  c.B / ln (flirLogArg c v) - 27315 / 100

/-- Modelled from the spec: the per-pixel FLIR conversion — it fails with
`ConversionDomainError` exactly when `(rawValue + O) = 0` (division by zero)
or the logarithm argument is not positive, and otherwise returns the Planck
temperature. -/
def flirConvert (ln : ℚ → ℚ) (c : FlirCalibration) (v : ℤ) :
    Except ConversionDomainError ℚ :=
  if (v : ℚ) + c.O = 0 then Except.error ConversionDomainError.divisionByZero
  else if flirLogArg c v ≤ 0 then Except.error ConversionDomainError.logNonPositive
  else Except.ok (flirTemp ln c v)

/-- Modelled from the spec: the outcome of a FLIR run — the successfully
converted temperatures in input order, and the count of skipped pixels
reported in the run statistics. -/
structure FlirRunResult where
  observed : List ℚ
  skippedCount : ℕ
deriving DecidableEq

/-- Modelled from the spec: the single-pass FLIR aggregation loop with the
required per-pixel skip policy — a failing pixel increments `skippedCount` and
the loop continues; the run itself is total (never aborted by a pixel). -/
def flirRun (ln : ℚ → ℚ) (c : FlirCalibration) : List ℤ → FlirRunResult
  | [] => { observed := [], skippedCount := 0 }
  | v :: vs =>
    let r := flirRun ln c vs
    match flirConvert ln c v with
    | Except.ok t => { observed := t :: r.observed, skippedCount := r.skippedCount }
    | Except.error _ => { observed := r.observed, skippedCount := r.skippedCount + 1 }

/-- A pixel satisfying the domain condition converts to its Planck value. -/
theorem flirConvert_ok (ln : ℚ → ℚ) {c : FlirCalibration} {v : ℤ}
    (h : flirDomainOk c v) : flirConvert ln c v = Except.ok (flirTemp ln c v) := by
  rw [flirConvert, if_neg h.1, if_neg (not_le.mpr h.2)]

/-- A pixel violating the domain condition fails with some domain error. -/
theorem flirConvert_error (ln : ℚ → ℚ) {c : FlirCalibration} {v : ℤ}
    (h : ¬ flirDomainOk c v) : ∃ e, flirConvert ln c v = Except.error e := by
  by_cases h0 : (v : ℚ) + c.O = 0
  · exact ⟨ConversionDomainError.divisionByZero, by rw [flirConvert, if_pos h0]⟩
  · have harg : flirLogArg c v ≤ 0 := by
      by_contra hc
      exact h ⟨h0, not_le.mp hc⟩
    exact ⟨ConversionDomainError.logNonPositive,
      by rw [flirConvert, if_neg h0, if_pos harg]⟩

/-- Full characterisation of a FLIR run: skips are counted, every non-skipped
pixel is processed normally in order, and every pixel is either observed or
skipped (the run is never aborted). -/
theorem flirRun_spec (ln : ℚ → ℚ) (c : FlirCalibration) :
    ∀ data : List ℤ,
      (flirRun ln c data).skippedCount =
        (data.filter (fun v => !(decide (flirDomainOk c v)))).length ∧
      (flirRun ln c data).observed =
        (data.filter (fun v => decide (flirDomainOk c v))).map (flirTemp ln c) ∧
      (flirRun ln c data).observed.length + (flirRun ln c data).skippedCount =
        data.length := by
  intro data
  induction data with
  | nil => exact ⟨rfl, rfl, rfl⟩
  | cons v vs ih =>
    obtain ⟨ih1, ih2, ih3⟩ := ih
    by_cases h : flirDomainOk c v
    · have hok := flirConvert_ok ln (c := c) (v := v) h
      have hd : decide (flirDomainOk c v) = true := decide_eq_true h
      refine ⟨?_, ?_, ?_⟩
      · simp [flirRun, hok, List.filter_cons, hd, ih1]
      · simp [flirRun, hok, List.filter_cons, hd, ih2]
      · simp only [flirRun, hok]
        simp only [List.length_cons]
        omega
    · obtain ⟨e, herr⟩ := flirConvert_error ln (c := c) (v := v) h
      have hd : decide (flirDomainOk c v) = false := decide_eq_false h
      refine ⟨?_, ?_, ?_⟩
      · simp [flirRun, herr, List.filter_cons, hd, ih1]
      · simp [flirRun, herr, List.filter_cons, hd, ih2]
      · simp only [flirRun, herr]
        simp only [List.length_cons]
        omega

/-- The calibration of the specification's Scenario C
(`R1 = 16000, R2 = 0.04, B = 1400, F = 1, O = 0`). -/
def scenCCalibration : FlirCalibration :=
  { R1 := 16000, R2 := 4 / 100, B := 1400, F := 1, O := 0 }

/-- C9. Modelled from the spec: a per-pixel `ConversionDomainError` — raised
exactly when `(rawValue + O) = 0` or the logarithm argument is non-positive —
causes that pixel to be skipped and counted in `skippedCount`, never aborts
the run, and leaves all remaining pixels processed normally in order; in the
Scenario C instance, raw value `0` with `O = 0` is skipped (`skippedCount = 1`)
while raw value `1000` is processed normally. -/
theorem C9_flir_per_pixel_skip (ln : ℚ → ℚ) (c : FlirCalibration) (data : List ℤ) :
    (flirRun ln c data).skippedCount =
      (data.filter (fun v => !(decide (flirDomainOk c v)))).length ∧
    (flirRun ln c data).observed =
      (data.filter (fun v => decide (flirDomainOk c v))).map (flirTemp ln c) ∧
    (flirRun ln c data).observed.length + (flirRun ln c data).skippedCount =
      data.length ∧
    (∀ v : ℤ, ¬ flirDomainOk c v → ∃ e, flirConvert ln c v = Except.error e) ∧
    ((flirRun ln scenCCalibration [0, 1000]).skippedCount = 1 ∧
      (flirRun ln scenCCalibration [0, 1000]).observed =
        [flirTemp ln scenCCalibration 1000]) := by
  obtain ⟨h1, h2, h3⟩ := flirRun_spec ln c data
  refine ⟨h1, h2, h3, fun v hv => flirConvert_error ln hv, ?_, ?_⟩
  · norm_num [flirRun, flirConvert, flirLogArg, scenCCalibration]
  · norm_num [flirRun, flirConvert, flirLogArg, scenCCalibration]
